import Mathlib

/-!
Shallow embedding of `sfinance_server.py` (sfinance-mcp-server): the TTL
ticker cache, the lazy session broker, the result serializer and the
`call_tool` dispatcher, together with theorems settling the specification
claims about them.

Conventions of the embedding:
* Python module globals (`sf`, `ticker_cache`, `_login_attempted`,
  `_login_successful`) become the fields of `ServerState`, threaded
  explicitly through every function.
* `datetime.now()` becomes an explicit `now : Nat` parameter (time measured
  in hours, the unit of `CACHE_EXPIRY_HOURS`).  `current_time - cache_time`
  on `Nat` is truncated at zero, which agrees with the Python comparisons:
  a negative timedelta is both `< 24h` and not `≥ 24h`.
* The opaque backend (`SFinance`, its ticker objects, the screener) is an
  `Env` of deterministic oracles: which symbols have tickers, whether
  construction and login succeed, and what data each query returns.
* Exceptions become an `Exc` sum threaded through `Except`; the
  `try/except` wrapper of `call_tool` is the total function `call_tool`
  built on `call_tool_core`.
* `ServerState` additionally carries event counters (`constructCalls`,
  `loginCalls`, `factoryCalls`, `screenerCalls`) recording how often each
  external side effect was performed; the Python code performs those calls
  at exactly the points where the counters are incremented.
-/

namespace SFin

/-- JSON values, modelling the dictionaries/lists the server passes to
`json.dumps` (object fields keep insertion order, as Python dicts do). -/
inductive Json where
  | str : String → Json
  | num : Nat → Json
  | bool : Bool → Json
  | arr : List Json → Json
  | obj : List (String × Json) → Json

/-- A pandas `DataFrame`, modelled as its list of rows; each row is a
record of column/value pairs. -/
abbrev DataFrame := List (List (String × Json))

/-- Python `str.upper()`, modelled characterwise with `Char.toUpper`
(which matches Python uppercasing on the ASCII stock symbols the server
handles). -/
def pyUpper (s : String) : String := ⟨s.data.map Char.toUpper⟩

theorem char_toNat_ofNat (n : Nat) (h : n < 55296) : (Char.ofNat n).toNat = n := by
  have hv : n.isValidChar := Or.inl h
  rw [Char.ofNat, dif_pos hv]
  rfl

theorem char_toUpper_idem (c : Char) : c.toUpper.toUpper = c.toUpper := by
  by_cases h : c.toNat ≥ 97 ∧ c.toNat ≤ 122
  · have h2 : c.toUpper = Char.ofNat (c.toNat - 32) := by
      simp only [Char.toUpper]
      rw [if_pos h]
    have h1 : (Char.ofNat (c.toNat - 32)).toNat = c.toNat - 32 :=
      char_toNat_ofNat _ (by omega)
    rw [h2]
    simp only [Char.toUpper]
    rw [if_neg (by rw [h1]; omega)]
  · have h2 : c.toUpper = c := by
      simp only [Char.toUpper]
      rw [if_neg h]
    rw [h2, h2]

theorem pyUpper_idem (s : String) : pyUpper (pyUpper s) = pyUpper s := by
  have hf : Char.toUpper ∘ Char.toUpper = Char.toUpper := by
    funext c
    exact char_toUpper_idem c
  simp only [pyUpper, List.map_map, hf]

/-- The live per-symbol ticker handle the backend hands out
(`sf_instance.ticker(symbol)`).  The handle is opaque to the server; the
`id` field is a creation serial number so that distinct factory products
are distinguishable ("the same resource instance" is `Ticker` equality). -/
structure Ticker where
  symbol : String
  id : Nat
deriving DecidableEq, Repr

/-- The backing `SFinance` client.  The only thing the server ever reads
from it is `sf.fetcher.is_logged_in()`, modelled by `loggedIn`. -/
structure Session where
  loggedIn : Bool
deriving DecidableEq, Repr

/-- The deterministic oracle for everything outside `src/`: the process
environment and the opaque scraping backend. -/
structure Env where
  /-- `SCREENER_EMAIL` (`none` = unset). -/
  email : Option String
  /-- `SCREENER_PASSWORD` (`none` = unset). -/
  password : Option String
  /-- whether `SFinance(screener_url, chrome_path)` constructs without raising -/
  constructOk : Bool
  /-- outcome of the login attempt: `none` = `sf.login` raises;
      `some b` = login returns and `sf.fetcher.is_logged_in()` is then `b` -/
  loginResult : Option Bool
  /-- symbols for which `sf.ticker(symbol)` succeeds; others raise `TickerNotFound` -/
  knownSymbols : List String
  /-- message of the exception raised when construction fails -/
  initErrMsg : String
  /-- `ticker.get_overview()` (a dict) -/
  overviewData : String → List (String × Json)
  /-- `ticker.get_income_statement()` -/
  incomeStatement : String → DataFrame
  /-- `ticker.get_balance_sheet()` -/
  balanceSheet : String → DataFrame
  /-- `ticker.get_cash_flow()` -/
  cashFlow : String → DataFrame
  /-- `ticker.get_quarterly_results()` -/
  quarterlyResults : String → DataFrame
  /-- `ticker.get_shareholding()` -/
  shareholding : String → DataFrame
  /-- `ticker.get_peer_comparison()` -/
  peerComparison : String → DataFrame
  /-- `screener.load_raw_query(...)`: `none` = it raises, `some df` = result -/
  screenerData : Option DataFrame
  /-- message of the exception raised by the screener query, when it raises -/
  screenerErrMsg : String
  /-- the static `SCREENER_PARAMS` catalog (from `constants.py`, not under `src/`) -/
  screenerParams : List (String × Json)
  /-- the static `SCREENER_OPERATORS` catalog -/
  screenerOperators : Json

/-- The module-global mutable state of `sfinance_server.py`, plus event
counters for the externally observable side effects. -/
structure ServerState where
  /-- global `sf` -/
  sf : Option Session
  /-- global `_login_attempted` -/
  loginAttempted : Bool
  /-- global `_login_successful` -/
  loginSuccessful : Bool
  /-- global `ticker_cache`: an insertion-ordered dict, as an association
      list `symbol ↦ (ticker, cache_time)` -/
  tickerCache : List (String × Ticker × Nat)
  /-- serial number for the next ticker the backend creates -/
  nextId : Nat
  /-- how many times `SFinance(...)` has been constructed successfully -/
  constructCalls : Nat
  /-- how many times `sf.login(...)` has been attempted -/
  loginCalls : Nat
  /-- how many times the ticker factory `sf.ticker(symbol)` has been invoked
      (counting invocations that raise `TickerNotFound`) -/
  factoryCalls : Nat
  /-- how many times the screener query path (`sf.screener()` +
      `load_raw_query`) has been invoked -/
  screenerCalls : Nat
deriving DecidableEq, Repr

/-- The state at process start. -/
def initState : ServerState :=
  { sf := none, loginAttempted := false, loginSuccessful := false,
    tickerCache := [], nextId := 0, constructCalls := 0, loginCalls := 0,
    factoryCalls := 0, screenerCalls := 0 }

/-- `CACHE_EXPIRY_HOURS = 24`. -/
def CACHE_EXPIRY_HOURS : Nat := 24

/-- `timedelta(hours=CACHE_EXPIRY_HOURS)`, in the model's time unit (hours). -/
def cacheTTL : Nat := CACHE_EXPIRY_HOURS

/-- Dictionary lookup `d[k]` / `k in d` on the cache association list. -/
def lookupA (k : String) : List (String × Ticker × Nat) → Option (Ticker × Nat)
  | [] => none
  | e :: rest => if e.1 = k then some e.2 else lookupA k rest

/-- Dictionary deletion `del d[k]` (removes every binding of `k`). -/
def eraseA (k : String) : List (String × Ticker × Nat) →
    List (String × Ticker × Nat)
  | [] => []
  | e :: rest => if e.1 = k then eraseA k rest else e :: eraseA k rest

/-- Dictionary assignment `d[k] = v`: replaces in place when the key is
present, appends otherwise (Python dicts keep insertion order). -/
def insertA (k : String) (v : Ticker × Nat) (l : List (String × Ticker × Nat)) :
    List (String × Ticker × Nat) :=
  if l.any (fun e => e.1 = k) then
    l.map (fun e => if e.1 = k then (k, v) else e)
  else
    l ++ [(k, v)]

/-- The exceptions `call_tool` distinguishes. -/
inductive Exc where
  /-- `TickerNotFound` from the sfinance library (carries `str(e)`) -/
  | tickerNotFound : String → Exc
  /-- `LoginRequiredError` from the sfinance library (carries `str(e)`) -/
  | loginRequired : String → Exc
  /-- `KeyError` from a missing argument (carries the key) -/
  | keyError : String → Exc
  /-- `ValueError` (carries `str(e)`) -/
  | valueError : String → Exc
  /-- any other `Exception` (carries `str(e)`) -/
  | generic : String → Exc
deriving DecidableEq, Repr

/-- Python truthiness of an argument value (`if symbol:`). -/
def truthy : Json → Bool
  | .str s => s ≠ ""
  | .num n => n ≠ 0
  | .bool b => b
  | .arr l => !l.isEmpty
  | .obj l => !l.isEmpty

/-- Truthiness of `email and password` in `get_sfinance` (both present and
non-empty). -/
def credsPresent (env : Env) : Bool :=
  match env.email, env.password with
  | some e, some p => e ≠ "" && p ≠ ""
  | _, _ => false

/-- The login status the freshly constructed client ends up with:
with credentials, the outcome of the single login attempt (an exception is
swallowed as `false`); without credentials, no attempt and `false`. -/
def loginOutcome (env : Env) : Bool :=
  if credsPresent env then env.loginResult.getD false else false

/-- `get_sfinance()` (lines 50–83): lazy construction of the backing
client; on first construction, at most one login attempt whose failure is
swallowed.  Construction failure re-raises and leaves `sf` unset. -/
def get_sfinance (env : Env) (s : ServerState) :
    Except String Session × ServerState :=
  match s.sf with
  | some sess => (.ok sess, s)
  | none =>
    if env.constructOk then
      let s := { s with constructCalls := s.constructCalls + 1 }
      if !s.loginAttempted then
        if credsPresent env then
          let s := { s with loginCalls := s.loginCalls + 1 }
          let success := env.loginResult.getD false
          let sess : Session := { loggedIn := success }
          (.ok sess, { s with sf := some sess, loginSuccessful := success,
                              loginAttempted := true })
        else
          let sess : Session := { loggedIn := false }
          (.ok sess, { s with sf := some sess, loginSuccessful := false,
                              loginAttempted := true })
      else
        let sess : Session := { loggedIn := false }
        (.ok sess, { s with sf := some sess })
    else
      (.error ("Failed to initialize SFinance: " ++ env.initErrMsg), s)

/-- `is_logged_in()` (lines 85–90): the live client state when a session
exists, the cached flag otherwise. -/
def is_logged_in (s : ServerState) : Bool :=
  match s.sf with
  | some sess => sess.loggedIn
  | none => s.loginSuccessful

/-- The miss path of `get_ticker` (lines 109–122): construct the backing
session, invoke the factory `sf_instance.ticker(symbol)`, cache the fresh
ticker under `(symbol, now)` and return it.  `symbol` is already
uppercased by the caller. -/
def get_ticker_create (env : Env) (now : Nat) (symbol : String)
    (s : ServerState) : Except Exc Ticker × ServerState :=
  match get_sfinance env s with
  | (.error msg, s) => (.error (.generic msg), s)
  | (.ok _, s) =>
    let s := { s with factoryCalls := s.factoryCalls + 1 }
    if env.knownSymbols.contains symbol then
      let t : Ticker := { symbol := symbol, id := s.nextId }
      (.ok t, { s with nextId := s.nextId + 1,
                       tickerCache := insertA symbol (t, now) s.tickerCache })
    else
      (.error (.tickerNotFound symbol), s)

/-- `get_ticker(symbol)` (lines 92–122): uppercase the symbol; return a
live cached ticker unchanged; evict an expired entry and fall through to
the miss path; on a miss create, cache and return a fresh ticker. -/
def get_ticker (env : Env) (now : Nat) (symbol : String) (s : ServerState) :
    Except Exc Ticker × ServerState :=
  let symbol := pyUpper symbol
  match lookupA symbol s.tickerCache with
  | some (cachedTicker, cacheTime) =>
    if now - cacheTime < cacheTTL then
      (.ok cachedTicker, s)
    else
      let s := { s with tickerCache := eraseA symbol s.tickerCache }
      get_ticker_create env now symbol s
  | none => get_ticker_create env now symbol s

/-- `clear_expired_cache()` (lines 124–136): collect the keys of the
entries whose age is ≥ TTL, then delete each.  The second component is
the Python function's return value: the removed keys are only logged, the
function itself returns `None` (modelled as `none`). -/
def clear_expired_cache (now : Nat) (s : ServerState) :
    ServerState × Option (List String) :=
  let expired := (s.tickerCache.filter
      (fun e => cacheTTL ≤ now - e.2.2)).map (fun e => e.1)
  ({ s with tickerCache := expired.foldl (fun c k => eraseA k c) s.tickerCache },
   none)

/-- The keys removed by the sweep at time `now`. -/
def expiredKeys (now : Nat) (s : ServerState) : List String :=
  (s.tickerCache.filter (fun e => cacheTTL ≤ now - e.2.2)).map (fun e => e.1)

/-- `get_cache_stats()` (lines 138–158). -/
def get_cache_stats (now : Nat) (s : ServerState) : Json :=
  let active := (s.tickerCache.filter (fun e => now - e.2.2 < cacheTTL)).length
  let expired := (s.tickerCache.filter
      (fun e => ¬ (now - e.2.2 < cacheTTL))).length
  Json.obj [("active_cache_entries", .num active),
            ("expired_cache_entries", .num expired),
            ("total_cache_entries", .num s.tickerCache.length),
            ("cache_expiry_hours", .num CACHE_EXPIRY_HOURS),
            ("login_status", .bool (is_logged_in s))]

/-- `df_to_json` (lines 160–164): an empty table renders as the sentinel
object, a non-empty one as the ordered list of its row-objects
(`to_json(orient='records')`). -/
def df_to_json (df : DataFrame) : Json :=
  if df.isEmpty then Json.obj [("error", Json.str "No data available")]
  else Json.arr (df.map Json.obj)

/-- Python `str(e)` for each modelled exception (`str` of a `KeyError`
wraps the missing key in single quotes). -/
def excStr : Exc → String
  | .tickerNotFound m => m
  | .loginRequired m => m
  | .keyError k => "'" ++ k ++ "'"
  | .valueError m => m
  | .generic m => m

/-- The `except` clauses of `call_tool` (lines 665–685), mapping each
exception to its structured error payload.  The text produced by
`traceback.format_exc()` is runtime-specific and is modelled by a fixed
placeholder string; no claim inspects it. -/
def errorJson : Exc → Json
  | .tickerNotFound m =>
    Json.obj [("error", .str "Ticker not found"), ("message", .str m),
              ("suggestion",
               .str "Please verify the stock symbol is correct and listed on NSE/BSE")]
  | .loginRequired m =>
    Json.obj [("error", .str "Login required"), ("message", .str m),
              ("instruction",
               .str "Set SCREENER_EMAIL and SCREENER_PASSWORD environment variables for automatic login")]
  | e =>
    Json.obj [("error", .str (excStr e)),
              ("traceback", .str "traceback text")]

/-- The argument bags of `call_tool` (`Dict[str, Any]`). -/
abbrev Args := List (String × Json)

/-- The `clear_cache` branch (lines 523–539). -/
def clear_cache_handler (args : Args) (s : ServerState) :
    Except Exc Json × ServerState :=
  match List.lookup "symbol" args with
  | some v =>
    if truthy v then
      match v with
      | Json.str sym =>
        let symbol := pyUpper sym
        if (lookupA symbol s.tickerCache).isSome then
          (.ok (Json.obj [("message", .str ("Cleared cache for " ++ symbol))]),
           { s with tickerCache := eraseA symbol s.tickerCache })
        else
          (.ok (Json.obj [("message", .str ("No cache found for " ++ symbol))]), s)
      | _ =>
        -- a truthy non-string has no `.upper()`: AttributeError
        (.error (.generic "AttributeError"), s)
    else
      (.ok (Json.obj [("message",
            .str ("Cleared all cache (" ++ toString s.tickerCache.length
                  ++ " entries)"))]),
       { s with tickerCache := [] })
  | none =>
    (.ok (Json.obj [("message",
          .str ("Cleared all cache (" ++ toString s.tickerCache.length
                ++ " entries)"))]),
     { s with tickerCache := [] })

/-- The `LoginRequired` payload the `screen_stocks` branch emits when the
login check fails. -/
def screenLoginRequiredJson : Json :=
  Json.obj [("error", .str "Login required"),
            ("message", .str "Stock screening requires login to screener.in"),
            ("instruction",
             .str "Set SCREENER_EMAIL and SCREENER_PASSWORD environment variables and restart the server")]

/-- The `screen_stocks` branch (lines 551–594): read the arguments, then
inside its own try block construct the session, check the login gate, and
only then run the screener query; every exception inside that block is
reported as a "Screening failed" payload. -/
def screen_stocks_handler (env : Env) (args : Args) (s : ServerState) :
    Except Exc Json × ServerState :=
  match List.lookup "query" args with
  | none => (.error (.keyError "query"), s)
  | some query =>
    let sortv := (List.lookup "sort" args).getD (Json.str "")
    let orderv := (List.lookup "order" args).getD (Json.str "desc")
    let pagev := (List.lookup "page" args).getD (Json.num 1)
    match get_sfinance env s with
    | (.error msg, s) =>
      (.ok (Json.obj [("error", .str "Screening failed"),
                      ("message", .str msg), ("query", query)]), s)
    | (.ok _, s) =>
      if !(is_logged_in s) then
        (.ok screenLoginRequiredJson, s)
      else
        let s := { s with screenerCalls := s.screenerCalls + 1 }
        match env.screenerData with
        | none =>
          (.ok (Json.obj [("error", .str "Screening failed"),
                          ("message", .str env.screenerErrMsg),
                          ("query", query)]), s)
        | some df =>
          (.ok (Json.obj [("query", query), ("sort", sortv),
                          ("order", orderv), ("page", pagev),
                          ("total_results", .num df.length),
                          ("results",
                           if df.isEmpty then Json.arr []
                           else Json.arr (df.map Json.obj))]), s)

/-- The `get_screening_parameters` branch (lines 596–622).  The static
catalogs live in `constants.py` (not under `src/`) and are supplied by the
environment. -/
def screening_parameters_handler (env : Env) (args : Args) :
    Except Exc Json :=
  let allResult : Json :=
    Json.obj [("parameters", Json.obj env.screenerParams),
              ("operators", env.screenerOperators),
              ("note", .str "Use exact parameter names in queries. Case sensitive.")]
  let unknownCat : String → Json := fun c =>
    Json.obj [("error", .str ("Unknown category: " ++ c)),
              ("available_categories",
               Json.arr ((env.screenerParams.map (fun p => Json.str p.1))
                         ++ [Json.str "all"]))]
  match List.lookup "category" args with
  | none => .ok allResult
  | some (Json.str c) =>
    if c = "all" then .ok allResult
    else
      match List.lookup c env.screenerParams with
      | some ps =>
        .ok (Json.obj [("category", .str c), ("parameters", ps),
                       ("operators", env.screenerOperators)])
      | none => .ok (unknownCat c)
  | some (Json.num n) => .ok (unknownCat (toString n))
  | some (Json.bool b) => .ok (unknownCat (if b then "True" else "False"))
  | some _ =>
    -- `category in parameters` with an unhashable value: TypeError
    .error (.generic "unhashable type")

/-- The symbol-scoped tail of `call_tool` (lines 624–663): read and
uppercase the `symbol` argument, sweep expired entries, resolve the ticker
through the cache, then route to the per-tool query — or raise
`ValueError("Unknown tool: ...")` for a name outside the table. -/
def ticker_tool_handler (env : Env) (now : Nat) (name : String) (args : Args)
    (s : ServerState) : Except Exc Json × ServerState :=
  match List.lookup "symbol" args with
  | none => (.error (.keyError "symbol"), s)
  | some (Json.str sym) =>
    let symbol := pyUpper sym
    let s := (clear_expired_cache now s).1
    match get_ticker env now symbol s with
    | (.error e, s) => (.error e, s)
    | (.ok ticker, s) =>
      if name = "get_overview" then
        (.ok (Json.obj (env.overviewData ticker.symbol)), s)
      else if name = "get_income_statement" then
        (.ok (df_to_json (env.incomeStatement ticker.symbol)), s)
      else if name = "get_balance_sheet" then
        (.ok (df_to_json (env.balanceSheet ticker.symbol)), s)
      else if name = "get_cash_flow" then
        (.ok (df_to_json (env.cashFlow ticker.symbol)), s)
      else if name = "get_quarterly_results" then
        (.ok (df_to_json (env.quarterlyResults ticker.symbol)), s)
      else if name = "get_shareholding" then
        (.ok (df_to_json (env.shareholding ticker.symbol)), s)
      else if name = "get_peer_comparison" then
        (.ok (df_to_json (env.peerComparison ticker.symbol)), s)
      else
        (.error (.valueError ("Unknown tool: " ++ name)), s)
  | some _ =>
    -- a non-string `symbol` has no `.upper()`: AttributeError
    (.error (.generic "AttributeError"), s)

/-- The body of the `try` block of `call_tool` (lines 517–663): the
routing chain over tool names. -/
def call_tool_core (env : Env) (now : Nat) (name : String) (args : Args)
    (s : ServerState) : Except Exc Json × ServerState :=
  if name = "get_cache_stats" then
    (.ok (get_cache_stats now s), s)
  else if name = "clear_cache" then
    clear_cache_handler args s
  else if name = "check_login_status" then
    (.ok (Json.obj [("logged_in", .bool (is_logged_in s)),
                    ("message",
                     .str (if is_logged_in s then "Logged in to screener.in"
                           else "Not logged in. Screener functionality requires login.")),
                    ("note",
                     .str "Set SCREENER_EMAIL and SCREENER_PASSWORD environment variables for automatic login")]), s)
  else if name = "screen_stocks" then
    screen_stocks_handler env args s
  else if name = "get_screening_parameters" then
    (screening_parameters_handler env args, s)
  else
    ticker_tool_handler env now name args s

/-- `call_tool(name, arguments)` (lines 514–685): the routing chain wrapped
in the catch-all `try/except` that converts every exception into a
structured error payload.  The result is the single text payload of the
response together with the module state after the call. -/
def call_tool (env : Env) (now : Nat) (name : String) (args : Args)
    (s : ServerState) : Json × ServerState :=
  match call_tool_core env now name args s with
  | (.ok j, s) => (j, s)
  | (.error e, s) => (errorJson e, s)


/-! ### Concrete witness inputs -/

/-- A fully concrete environment for witnesses: construction succeeds, no
credentials are configured, only `INFY` and `TCS` are known symbols, and
every backend query returns an empty table. -/
def envW : Env :=
  { email := none, password := none, constructOk := true, loginResult := none,
    knownSymbols := ["INFY", "TCS"], initErrMsg := "boom",
    overviewData := fun _ => [], incomeStatement := fun _ => [],
    balanceSheet := fun _ => [], cashFlow := fun _ => [],
    quarterlyResults := fun _ => [], shareholding := fun _ => [],
    peerComparison := fun _ => [], screenerData := some [],
    screenerErrMsg := "query failed", screenerParams := [],
    screenerOperators := Json.obj [] }

/-- The concrete pre-state for the C5 counterexample: a single `INFY`
entry created at time 0, observed at time 24 (aged exactly one TTL). -/
def stC5 : ServerState :=
  { initState with tickerCache := [("INFY", ⟨"INFY", 0⟩, 0)], nextId := 1 }

/-- The state reached from `initState` by `get_ticker envW 0 "INFY"`:
session constructed, one factory call, one cache entry stamped 0. -/
def stC1 : ServerState :=
  { sf := some ⟨false⟩, loginAttempted := true, loginSuccessful := false,
    tickerCache := [("INFY", ⟨"INFY", 0⟩, 0)], nextId := 1,
    constructCalls := 1, loginCalls := 0, factoryCalls := 1,
    screenerCalls := 0 }


/-- All twelve tool names the `call_tool` routing chain recognizes. -/
def routedToolNames : List String :=
  ["get_cache_stats", "clear_cache", "check_login_status", "screen_stocks",
   "get_screening_parameters", "get_overview", "get_income_statement",
   "get_balance_sheet", "get_cash_flow", "get_quarterly_results",
   "get_shareholding", "get_peer_comparison"]

/-- The `error` field of a structured payload, used to tell error kinds
apart. -/
def errField : Json → Option String
  | .obj (("error", .str s) :: _) => some s
  | _ => none

/-- A state holding live cache entries for both `INFY` and `TCS`. -/
def stC7 : ServerState :=
  { initState with
      tickerCache := [("INFY", ⟨"INFY", 0⟩, 0), ("TCS", ⟨"TCS", 1⟩, 0)]
      nextId := 2 }


/-- The six symbol-scoped tools whose result is a table rendered by
`df_to_json`. -/
def tabularTools : List String :=
  ["get_income_statement", "get_balance_sheet", "get_cash_flow",
   "get_quarterly_results", "get_shareholding", "get_peer_comparison"]

/-- The backend table each tabular tool queries. -/
def tableFor (env : Env) (name symbol : String) : DataFrame :=
  if name = "get_income_statement" then env.incomeStatement symbol
  else if name = "get_balance_sheet" then env.balanceSheet symbol
  else if name = "get_cash_flow" then env.cashFlow symbol
  else if name = "get_quarterly_results" then env.quarterlyResults symbol
  else if name = "get_shareholding" then env.shareholding symbol
  else env.peerComparison symbol

/-- A sample non-empty table row. -/
def rowC4 : List (String × Json) := [("Sales", Json.num 100)]

/-- `envW`, except that income statements are non-empty. -/
def envC4 : Env := { envW with incomeStatement := fun _ => [rowC4] }

/-- The seven symbol-scoped query tools. -/
def symbolTools : List String :=
  ["get_overview", "get_income_statement", "get_balance_sheet",
   "get_cash_flow", "get_quarterly_results", "get_shareholding",
   "get_peer_comparison"]

/-- A state holding a single, already expired `TCS` entry (age 24 at
time 24). -/
def stC9 : ServerState :=
  { initState with tickerCache := [("TCS", ⟨"TCS", 0⟩, 0)], nextId := 1 }


/-- Every key in the cache is a fixed point of uppercasing. -/
def KeysUpper (c : List (String × Ticker × Nat)) : Prop :=
  ∀ e ∈ c, pyUpper e.1 = e.1

/-- No two keys in the cache differ only by case. -/
def NoCaseDup (c : List (String × Ticker × Nat)) : Prop :=
  ∀ e₁ ∈ c, ∀ e₂ ∈ c, pyUpper e₁.1 = pyUpper e₂.1 → e₁.1 = e₂.1

instance (c : List (String × Ticker × Nat)) : Decidable (KeysUpper c) :=
  List.decidableBAll _ c

instance (c : List (String × Ticker × Nat)) : Decidable (NoCaseDup c) :=
  inferInstanceAs (Decidable (∀ e₁ ∈ c, ∀ e₂ ∈ c,
    pyUpper e₁.1 = pyUpper e₂.1 → e₁.1 = e₂.1))


/-- A sequence of dispatched tool calls, each with its own observation
time, name and argument bag, starting from a given state. -/
def runOps (env : Env) : List (Nat × String × Args) → ServerState → ServerState
  | [], s => s
  | op :: ops, s => runOps env ops (call_tool env op.1 op.2.1 op.2.2 s).2

/-! ### Association-list lemmas -/


theorem lookupA_eraseA (k j : String) (l : List (String × Ticker × Nat)) :
    lookupA k (eraseA j l) = if k = j then none else lookupA k l := by
  induction l with
  | nil => simp [eraseA, lookupA]
  | cons e rest ih =>
    by_cases hej : e.1 = j
    · simp only [eraseA, if_pos hej, ih]
      by_cases hkj : k = j
      · simp [hkj]
      · have hek : e.1 ≠ k := fun h => hkj (by rw [← h, hej])
        simp [lookupA, hkj, hek]
    · simp only [eraseA, if_neg hej, lookupA, ih]
      by_cases hek : e.1 = k
      · have hkj : k ≠ j := fun h => hej (by rw [hek, h])
        simp [hek, hkj]
      · simp [hek]

theorem lookupA_foldl_erase (K : List String) (l : List (String × Ticker × Nat))
    (k : String) :
    lookupA k (K.foldl (fun c j => eraseA j c) l) =
      if k ∈ K then none else lookupA k l := by
  induction K generalizing l with
  | nil => simp
  | cons j K ih =>
    simp only [List.foldl_cons, ih, lookupA_eraseA]
    by_cases hkj : k = j
    · simp [hkj]
    · simp [hkj, List.mem_cons]

theorem lookupA_mem {k : String} {v : Ticker × Nat}
    {l : List (String × Ticker × Nat)} (h : lookupA k l = some v) :
    (k, v) ∈ l := by
  induction l with
  | nil => simp [lookupA] at h
  | cons e rest ih =>
    by_cases hek : e.1 = k
    · rw [lookupA, if_pos hek] at h
      obtain ⟨ek, ev⟩ := e
      simp only at hek h
      subst hek
      rw [Option.some_inj] at h
      subst h
      exact List.mem_cons_self _ _
    · rw [lookupA, if_neg hek] at h
      exact List.mem_cons_of_mem _ (ih h)

theorem lookupA_eq_none {k : String} {l : List (String × Ticker × Nat)}
    (h : lookupA k l = none) : ∀ v, (k, v) ∉ l := by
  induction l with
  | nil => simp
  | cons e rest ih =>
    by_cases hek : e.1 = k
    · simp [lookupA, if_pos hek] at h
    · simp only [lookupA, if_neg hek] at h
      intro v hv
      rcases List.mem_cons.mp hv with heq | hmem
      · rw [← heq] at hek
        exact hek rfl
      · exact ih h v hmem

theorem lookupA_append (k : String) (l₁ l₂ : List (String × Ticker × Nat)) :
    lookupA k (l₁ ++ l₂) =
      match lookupA k l₁ with
      | some v => some v
      | none => lookupA k l₂ := by
  induction l₁ with
  | nil => simp [lookupA]
  | cons e rest ih =>
    by_cases hek : e.1 = k
    · simp [List.cons_append, lookupA, if_pos hek]
    · simp only [List.cons_append, lookupA, if_neg hek]
      exact ih

theorem lookupA_none_of_not_any {k : String} {l : List (String × Ticker × Nat)}
    (h : l.any (fun e => e.1 = k) = false) : lookupA k l = none := by
  induction l with
  | nil => rfl
  | cons e rest ih =>
    simp only [List.any_cons, Bool.or_eq_false_iff] at h
    have hek : e.1 ≠ k := by simpa using h.1
    simp only [lookupA, if_neg hek]
    exact ih h.2

theorem lookupA_insertA_self (k : String) (v : Ticker × Nat)
    (l : List (String × Ticker × Nat)) :
    lookupA k (insertA k v l) = some v := by
  by_cases hany : l.any (fun e => e.1 = k)
  · simp only [insertA, if_pos hany]
    induction l with
    | nil => simp at hany
    | cons e rest ih =>
      by_cases hek : e.1 = k
      · simp [List.map_cons, if_pos hek, lookupA]
      · simp only [List.any_cons] at hany
        have hrest : rest.any (fun e => e.1 = k) = true := by
          rcases Bool.or_eq_true_iff.mp hany with h | h
          · exact absurd (by simpa using h) hek
          · exact h
        simp only [List.map_cons, if_neg hek, lookupA]
        exact ih hrest
  · simp only [insertA, if_neg hany]
    rw [lookupA_append]
    rw [lookupA_none_of_not_any (Bool.eq_false_iff.mpr hany)]
    simp [lookupA]

theorem lookupA_map_replace (k j : String) (v : Ticker × Nat)
    (l : List (String × Ticker × Nat)) (h : k ≠ j) :
    lookupA k (l.map (fun e => if e.1 = j then (j, v) else e)) = lookupA k l := by
  have hjk : j ≠ k := fun hh => h hh.symm
  induction l with
  | nil => rfl
  | cons e rest ih =>
    by_cases hej : e.1 = j
    · have hek : e.1 ≠ k := by rw [hej]; exact hjk
      simp only [List.map_cons, if_pos hej, lookupA, if_neg hek]
      rw [if_neg (by simpa using hjk)]
      exact ih
    · simp only [List.map_cons, if_neg hej, lookupA]
      by_cases hek : e.1 = k
      · simp [if_pos hek]
      · simp only [if_neg hek]
        exact ih

theorem lookupA_insertA_ne (k j : String) (v : Ticker × Nat)
    (l : List (String × Ticker × Nat)) (h : k ≠ j) :
    lookupA k (insertA j v l) = lookupA k l := by
  by_cases hany : l.any (fun e => e.1 = j)
  · simp only [insertA, if_pos hany]
    exact lookupA_map_replace k j v l h
  · simp only [insertA, if_neg hany]
    rw [lookupA_append]
    cases hl : lookupA k l with
    | some v' => simp
    | none =>
      simp only [lookupA]
      rw [if_neg (show ¬ (j = k) from fun hh => h hh.symm)]

/-! ### Sweep and session-broker lemmas -/


theorem nodup_lookupA_unique {l : List (String × Ticker × Nat)}
    (hnodup : (l.map Prod.fst).Nodup) {k : String} {v v' : Ticker × Nat}
    (h : lookupA k l = some v) (h' : (k, v') ∈ l) : v' = v := by
  induction l with
  | nil => simp at h'
  | cons e rest ih =>
    simp only [List.map_cons, List.nodup_cons] at hnodup
    by_cases hek : e.1 = k
    · rw [lookupA, if_pos hek] at h
      rw [Option.some_inj] at h
      rcases List.mem_cons.mp h' with heq | hmem
      · rw [← heq] at h
        exact h ▸ rfl
      · exfalso
        apply hnodup.1
        rw [hek]
        exact List.mem_map.mpr ⟨(k, v'), hmem, rfl⟩
    · rw [lookupA, if_neg hek] at h
      rcases List.mem_cons.mp h' with heq | hmem
      · exfalso
        apply hek
        rw [← heq]
      · exact ih hnodup.2 h hmem

theorem clear_expired_cache_cache (now : Nat) (s : ServerState) :
    (clear_expired_cache now s).1.tickerCache =
      (expiredKeys now s).foldl (fun c k => eraseA k c) s.tickerCache := rfl

theorem sweep_lookup (now : Nat) (s : ServerState) (k : String) :
    lookupA k (clear_expired_cache now s).1.tickerCache =
      if k ∈ expiredKeys now s then none else lookupA k s.tickerCache := by
  rw [clear_expired_cache_cache, lookupA_foldl_erase]

theorem sweep_lookup_none {now : Nat} {s : ServerState} {k : String}
    (h : lookupA k s.tickerCache = none) :
    lookupA k (clear_expired_cache now s).1.tickerCache = none := by
  rw [sweep_lookup]
  split <;> simp [h]

theorem sweep_lookup_expired {now : Nat} {s : ServerState} {k : String}
    {t : Ticker} {ct : Nat} (h : lookupA k s.tickerCache = some (t, ct))
    (hexp : cacheTTL ≤ now - ct) :
    lookupA k (clear_expired_cache now s).1.tickerCache = none := by
  rw [sweep_lookup, if_pos]
  apply List.mem_map.mpr
  refine ⟨(k, t, ct), ?_, rfl⟩
  apply List.mem_filter.mpr
  exact ⟨lookupA_mem h, by simpa using hexp⟩

theorem sweep_lookup_live {now : Nat} {s : ServerState} {k : String}
    {t : Ticker} {ct : Nat}
    (hnodup : (s.tickerCache.map Prod.fst).Nodup)
    (h : lookupA k s.tickerCache = some (t, ct))
    (hlive : now - ct < cacheTTL) :
    lookupA k (clear_expired_cache now s).1.tickerCache = some (t, ct) := by
  rw [sweep_lookup, if_neg, h]
  intro hmem
  rcases List.mem_map.mp hmem with ⟨e, hef, hek⟩
  rcases List.mem_filter.mp hef with ⟨hemem, hexp⟩
  have he : e = (k, e.2) := by rw [← hek]
  rw [he] at hemem
  have := nodup_lookupA_unique hnodup h hemem
  rw [this] at hexp
  simp only [decide_eq_true_eq] at hexp
  omega

theorem sweep_frame (now : Nat) (s : ServerState) :
    (clear_expired_cache now s).1.sf = s.sf ∧
    (clear_expired_cache now s).1.loginAttempted = s.loginAttempted ∧
    (clear_expired_cache now s).1.loginSuccessful = s.loginSuccessful ∧
    (clear_expired_cache now s).1.nextId = s.nextId ∧
    (clear_expired_cache now s).1.constructCalls = s.constructCalls ∧
    (clear_expired_cache now s).1.loginCalls = s.loginCalls ∧
    (clear_expired_cache now s).1.factoryCalls = s.factoryCalls ∧
    (clear_expired_cache now s).1.screenerCalls = s.screenerCalls := by
  refine ⟨rfl, rfl, rfl, rfl, rfl, rfl, rfl, rfl⟩

theorem get_sfinance_isOk {env : Env} (s : ServerState)
    (hctor : env.constructOk = true) :
    ∃ sess, (get_sfinance env s).1 = Except.ok sess ∧
            (get_sfinance env s).2.sf = some sess := by
  cases hsf : s.sf with
  | some sess => exact ⟨sess, by simp [get_sfinance, hsf], by simp [get_sfinance, hsf, hsf]⟩
  | none =>
    simp only [get_sfinance, hsf, hctor, if_true]
    by_cases hla : s.loginAttempted
    · simp [hla]
    · by_cases hcp : credsPresent env
      · simp [hla, hcp]
      · simp [hla, hcp]

theorem get_sfinance_frame (env : Env) (s : ServerState) :
    (get_sfinance env s).2.tickerCache = s.tickerCache ∧
    (get_sfinance env s).2.nextId = s.nextId ∧
    (get_sfinance env s).2.factoryCalls = s.factoryCalls ∧
    (get_sfinance env s).2.screenerCalls = s.screenerCalls := by
  cases hsf : s.sf with
  | some sess => simp [get_sfinance, hsf]
  | none =>
    simp only [get_sfinance, hsf]
    by_cases hctor : env.constructOk
    · by_cases hla : s.loginAttempted
      · simp [hctor, hla]
      · by_cases hcp : credsPresent env
        · simp [hctor, hla, hcp]
        · simp [hctor, hla, hcp]
    · simp [hctor]


theorem get_sfinance_ok_state {env : Env} {s : ServerState} {sess : Session}
    (h : s.sf = some sess) : get_sfinance env s = (.ok sess, s) := by
  simp [get_sfinance, h]

theorem get_ticker_create_known {env : Env} {now : Nat} {u : String}
    {s : ServerState} (hctor : env.constructOk = true)
    (hknown : env.knownSymbols.contains u = true) :
    get_ticker_create env now u s =
      (.ok ⟨u, s.nextId⟩,
       { (get_sfinance env s).2 with
           factoryCalls := (get_sfinance env s).2.factoryCalls + 1,
           nextId := s.nextId + 1,
           tickerCache := insertA u (⟨u, s.nextId⟩, now) s.tickerCache }) := by
  obtain ⟨sess, h1, _⟩ := get_sfinance_isOk s hctor
  rcases hget : get_sfinance env s with ⟨r, s'⟩
  rw [hget] at h1
  simp only at h1
  subst h1
  obtain ⟨hc, hn, hf, _⟩ := get_sfinance_frame env s
  rw [hget] at hc hn hf
  simp only at hc hn hf
  simp only [get_ticker_create, hget, hknown, if_true]
  rw [hn, hc]

theorem get_ticker_create_unknown {env : Env} {now : Nat} {u : String}
    {s : ServerState} (hctor : env.constructOk = true)
    (hknown : env.knownSymbols.contains u = false) :
    get_ticker_create env now u s =
      (.error (.tickerNotFound u),
       { (get_sfinance env s).2 with
           factoryCalls := (get_sfinance env s).2.factoryCalls + 1 }) := by
  obtain ⟨sess, h1, _⟩ := get_sfinance_isOk s hctor
  rcases hget : get_sfinance env s with ⟨r, s'⟩
  rw [hget] at h1
  simp only at h1
  subst h1
  simp only [get_ticker_create, hget, hknown]
  rfl

/-! ### Claim theorems -/
/-- C8: the session broker constructs at most once, attempts login at most
once, and a failed login does not raise. -/
theorem session_broker_one_shot (env : Env) (s : ServerState) (sess : Session) :
    (s.sf = some sess → get_sfinance env s = (.ok sess, s)) ∧
    (s.sf = none → s.loginAttempted = false → env.constructOk = true →
      get_sfinance env s =
        (.ok ⟨loginOutcome env⟩,
         { s with sf := some ⟨loginOutcome env⟩,
                  loginAttempted := true,
                  loginSuccessful := loginOutcome env,
                  constructCalls := s.constructCalls + 1,
                  loginCalls := s.loginCalls +
                    (if credsPresent env then 1 else 0) })) ∧
    (s.sf = none → env.constructOk = false →
      get_sfinance env s =
        (.error ("Failed to initialize SFinance: " ++ env.initErrMsg), s)) ∧
    (credsPresent env = true → env.loginResult = none →
      loginOutcome env = false) := by
  refine ⟨fun h => get_sfinance_ok_state h, fun hsf hla hctor => ?_,
          fun hsf hctor => ?_, fun hcp hlr => ?_⟩
  · by_cases hcp : credsPresent env
    · simp [get_sfinance, hsf, hla, hctor, hcp, loginOutcome]
    · simp [get_sfinance, hsf, hla, hctor, hcp, loginOutcome]
  · simp [get_sfinance, hsf, hctor]
  · simp [loginOutcome, hcp, hlr]

theorem session_broker_one_shot_witness :
    (get_sfinance envW { initState with sf := some ⟨false⟩ } =
        (.ok ⟨false⟩, { initState with sf := some ⟨false⟩ })) ∧
    (get_sfinance envW initState =
        (.ok ⟨false⟩,
         { initState with sf := some ⟨false⟩, loginAttempted := true,
                          constructCalls := 1 })) := by
  have h1 := (session_broker_one_shot envW { initState with sf := some ⟨false⟩ } ⟨false⟩).1 rfl
  have h2 := (session_broker_one_shot envW initState ⟨false⟩).2.1 rfl rfl rfl
  exact ⟨h1, by simpa using h2⟩


/-- C5 (amended): the sweep removes exactly the entries aged ≥ TTL, keeps
every younger entry, and returns `None` — the removed keys are only
logged, not returned. -/
theorem sweep_expired_contract (now : Nat) (s : ServerState)
    (hnodup : (s.tickerCache.map Prod.fst).Nodup) :
    (∀ k t ct, lookupA k s.tickerCache = some (t, ct) →
        lookupA k (clear_expired_cache now s).1.tickerCache =
          if cacheTTL ≤ now - ct then none else some (t, ct)) ∧
    (clear_expired_cache now s).2 = none := by
  refine ⟨fun k t ct h => ?_, rfl⟩
  by_cases hexp : cacheTTL ≤ now - ct
  · rw [if_pos hexp]
    exact sweep_lookup_expired h hexp
  · rw [if_neg hexp]
    exact sweep_lookup_live hnodup h (by omega)

/-- C5 counterexample: at time 24 the sweep does remove the expired
`INFY` entry, but its return value is `None`, not the list `["INFY"]` of
removed keys the claim promises to the caller. -/
theorem sweep_returns_none_counterexample :
    (clear_expired_cache 24 stC5).1.tickerCache = [] ∧
    (clear_expired_cache 24 stC5).2 = none ∧
    (clear_expired_cache 24 stC5).2 ≠ some ["INFY"] := by
  refine ⟨rfl, rfl, by decide⟩

theorem sweep_expired_contract_witness :
    lookupA "INFY" (clear_expired_cache 24 stC5).1.tickerCache = none ∧
    lookupA "INFY" (clear_expired_cache 23 stC5).1.tickerCache =
      some (⟨"INFY", 0⟩, 0) ∧
    (clear_expired_cache 24 stC5).2 = none := by
  have h24 := (sweep_expired_contract 24 stC5 (by decide)).1 "INFY" ⟨"INFY", 0⟩ 0 rfl
  have h23 := (sweep_expired_contract 23 stC5 (by decide)).1 "INFY" ⟨"INFY", 0⟩ 0 rfl
  have hn := (sweep_expired_contract 24 stC5 (by decide)).2
  refine ⟨by simpa using h24, by simpa using h23, hn⟩


/-- C1: after a first `get_ticker` call has produced ticker `t` with a
cache entry stamped `ct`, a later call strictly within the TTL returns
the same ticker with the state (in particular the factory-invocation
counter) unchanged, while a call at or past the TTL evicts the stale
entry, invokes the factory once more, and stores a fresh entry stamped
with the new time. -/
theorem ttl_cache_correctness (env : Env) (s₀ s₁ : ServerState)
    (sym : String) (now₀ now : Nat) (t : Ticker) (ct : Nat)
    (_hfirst : get_ticker env now₀ sym s₀ = (.ok t, s₁))
    (hentry : lookupA (pyUpper sym) s₁.tickerCache = some (t, ct))
    (hctor : env.constructOk = true)
    (hknown : env.knownSymbols.contains (pyUpper sym) = true) :
    (now - ct < cacheTTL →
      get_ticker env now sym s₁ = (.ok t, s₁)) ∧
    (cacheTTL ≤ now - ct →
      (get_ticker env now sym s₁).1 = .ok ⟨pyUpper sym, s₁.nextId⟩ ∧
      (get_ticker env now sym s₁).2.factoryCalls = s₁.factoryCalls + 1 ∧
      lookupA (pyUpper sym) (get_ticker env now sym s₁).2.tickerCache =
        some (⟨pyUpper sym, s₁.nextId⟩, now)) := by
  constructor
  · intro hlive
    simp only [get_ticker, hentry]
    rw [if_pos hlive]
  · intro hexp
    have hnotlive : ¬ (now - ct < cacheTTL) := by omega
    simp only [get_ticker, hentry]
    rw [if_neg hnotlive]
    set s₂ := { s₁ with tickerCache := eraseA (pyUpper sym) s₁.tickerCache }
      with hs₂
    rw [get_ticker_create_known hctor hknown]
    obtain ⟨hc, hn, hf, _⟩ := get_sfinance_frame env s₂
    refine ⟨rfl, ?_, ?_⟩
    · simp [hf]
    · simp only
      rw [lookupA_insertA_self]

theorem ttl_cache_correctness_witness :
    (get_ticker envW 23 "INFY" stC1 = (.ok ⟨"INFY", 0⟩, stC1)) ∧
    ((get_ticker envW 24 "INFY" stC1).2.factoryCalls = 2 ∧
     lookupA "INFY" (get_ticker envW 24 "INFY" stC1).2.tickerCache =
       some (⟨"INFY", 1⟩, 24)) := by
  have hbase := ttl_cache_correctness envW initState stC1 "INFY" 0 23
      ⟨"INFY", 0⟩ 0 rfl rfl rfl rfl
  have hbase24 := ttl_cache_correctness envW initState stC1 "INFY" 0 24
      ⟨"INFY", 0⟩ 0 rfl rfl rfl rfl
  refine ⟨hbase.1 (by decide), ?_, ?_⟩
  · exact (hbase24.2 (by decide)).2.1
  · exact (hbase24.2 (by decide)).2.2


theorem get_sfinance_sf_of_ok {env : Env} {s : ServerState} {sess : Session}
    (h : (get_sfinance env s).1 = Except.ok sess) :
    (get_sfinance env s).2.sf = some sess := by
  cases hsf : s.sf with
  | some s0 =>
    rw [get_sfinance_ok_state hsf] at h ⊢
    simp only at h ⊢
    have hs0 : s0 = sess := by injection h
    rw [hsf, hs0]
  | none =>
    by_cases hctor : env.constructOk
    · by_cases hla : s.loginAttempted
      · simp only [get_sfinance, hsf, hctor, if_true, hla] at h ⊢
        simp at h ⊢
        exact h
      · by_cases hcp : credsPresent env
        · simp only [get_sfinance, hsf, hctor, if_true, hla, hcp] at h ⊢
          simp at h ⊢
          exact h
        · simp only [get_sfinance, hsf, hctor, if_true, hla, hcp] at h ⊢
          simp at h ⊢
          exact h
    · simp only [get_sfinance, hsf] at h
      rw [if_neg hctor] at h
      simp at h

/-- C2 (amended): dispatching `screen_stocks` while not logged in returns
the `LoginRequired` payload and never reaches the screener query path —
but only after the backing session has been resolved: `get_sfinance()` is
invoked (constructing the session when absent) before the login check. -/
theorem screen_stocks_login_gate (env : Env) (now : Nat) (args : Args)
    (s : ServerState) (sess : Session) (q : Json)
    (hq : List.lookup "query" args = some q)
    (hsf : (get_sfinance env s).1 = Except.ok sess)
    (hlog : is_logged_in (get_sfinance env s).2 = false) :
    call_tool env now "screen_stocks" args s =
      (screenLoginRequiredJson, (get_sfinance env s).2) ∧
    (get_sfinance env s).2.screenerCalls = s.screenerCalls ∧
    (get_sfinance env s).2.sf = some sess := by
  refine ⟨?_, (get_sfinance_frame env s).2.2.2, get_sfinance_sf_of_ok hsf⟩
  rw [call_tool, call_tool_core]
  rw [if_neg (by decide), if_neg (by decide), if_neg (by decide),
      if_pos rfl]
  rw [screen_stocks_handler, hq]
  rcases hget : get_sfinance env s with ⟨r, s'⟩
  rw [hget] at hsf hlog
  simp only at hsf hlog
  subst hsf
  simp only [hlog, Bool.not_false, if_pos]

/-- C2 counterexample: with no credentials configured and `initState`
(no session yet), dispatching `screen_stocks` does return the
`LoginRequired` payload — but the backing session HAS been constructed by
then (`sf` is set and the construction counter is 1), contradicting the
claim that the backend is not invoked. -/
theorem screen_stocks_constructs_session_counterexample :
    (call_tool envW 0 "screen_stocks" [("query", Json.str "q")] initState).1 =
      screenLoginRequiredJson ∧
    (call_tool envW 0 "screen_stocks" [("query", Json.str "q")] initState).2.sf =
      some ⟨false⟩ ∧
    (call_tool envW 0 "screen_stocks"
        [("query", Json.str "q")] initState).2.constructCalls = 1 := by
  refine ⟨rfl, rfl, rfl⟩

theorem screen_stocks_login_gate_witness :
    call_tool envW 0 "screen_stocks" [("query", Json.str "q")] initState =
      (screenLoginRequiredJson, (get_sfinance envW initState).2) ∧
    (get_sfinance envW initState).2.screenerCalls = 0 ∧
    (get_sfinance envW initState).2.sf = some ⟨false⟩ := by
  exact screen_stocks_login_gate envW 0 [("query", Json.str "q")] initState
    ⟨false⟩ (Json.str "q") rfl rfl rfl

theorem call_tool_core_unrouted (env : Env) (now : Nat) (name : String)
    (args : Args) (s : ServerState) (h : name ∉ routedToolNames) :
    call_tool_core env now name args s =
      ticker_tool_handler env now name args s := by
  simp only [routedToolNames, List.mem_cons, not_or, List.not_mem_nil,
    not_false_iff, and_true] at h
  obtain ⟨h1, h2, h3, h4, h5, _⟩ := h
  rw [call_tool_core, if_neg h1, if_neg h2, if_neg h3, if_neg h4, if_neg h5]

theorem ticker_tool_handler_unknown (env : Env) (now : Nat) (name : String)
    (args : Args) (s s' : ServerState) (sym : String) (t : Ticker)
    (h : name ∉ routedToolNames)
    (hsym : List.lookup "symbol" args = some (Json.str sym))
    (hticker : get_ticker env now (pyUpper sym)
        (clear_expired_cache now s).1 = (.ok t, s')) :
    ticker_tool_handler env now name args s =
      (.error (.valueError ("Unknown tool: " ++ name)), s') := by
  simp only [routedToolNames, List.mem_cons, not_or, List.not_mem_nil,
    not_false_iff, and_true] at h
  obtain ⟨_, _, _, _, _, h6, h7, h8, h9, h10, h11, h12⟩ := h
  rw [ticker_tool_handler, hsym]
  simp only [hticker]
  rw [if_neg h6, if_neg h7, if_neg h8, if_neg h9, if_neg h10, if_neg h11,
    if_neg h12]

/-- C7: with entries for `INFY` and `TCS` present, `clear_cache` without a
symbol empties the cache and reports the number of evicted entries, while
`clear_cache("INFY")` removes exactly the `INFY` entry and leaves every
other entry — in particular `TCS` — untouched. -/
theorem clear_cache_semantics (env : Env) (now : Nat) (s : ServerState)
    (tI tT : Ticker) (ctI ctT : Nat)
    (hI : lookupA "INFY" s.tickerCache = some (tI, ctI))
    (hT : lookupA "TCS" s.tickerCache = some (tT, ctT)) :
    (call_tool env now "clear_cache" [] s =
       (Json.obj [("message", Json.str ("Cleared all cache ("
           ++ toString s.tickerCache.length ++ " entries)"))],
        { s with tickerCache := [] })) ∧
    (call_tool env now "clear_cache" [("symbol", Json.str "INFY")] s =
       (Json.obj [("message", Json.str "Cleared cache for INFY")],
        { s with tickerCache := eraseA "INFY" s.tickerCache })) ∧
    lookupA "TCS" (eraseA "INFY" s.tickerCache) = some (tT, ctT) ∧
    (∀ k, k ≠ "INFY" →
      lookupA k (eraseA "INFY" s.tickerCache) = lookupA k s.tickerCache) := by
  refine ⟨?_, ?_, ?_, fun k hk => ?_⟩
  · rw [call_tool, call_tool_core, if_neg (by decide), if_pos rfl]
    rw [clear_cache_handler]
    rfl
  · rw [call_tool, call_tool_core, if_neg (by decide), if_pos rfl]
    rw [clear_cache_handler]
    simp only [List.lookup]
    rw [show (("symbol" : String) == "symbol") = true from rfl]
    simp only [truthy]
    rw [if_pos (by decide)]
    rw [show pyUpper "INFY" = "INFY" from rfl]
    rw [hI]
    rfl
  · rw [lookupA_eraseA, if_neg (by decide)]
    exact hT
  · rw [lookupA_eraseA, if_neg hk]

theorem clear_cache_semantics_witness :
    (call_tool envW 0 "clear_cache" [] stC7 =
       (Json.obj [("message", Json.str "Cleared all cache (2 entries)")],
        { stC7 with tickerCache := [] })) ∧
    (call_tool envW 0 "clear_cache" [("symbol", Json.str "INFY")] stC7 =
       (Json.obj [("message", Json.str "Cleared cache for INFY")],
        { stC7 with tickerCache := [("TCS", ⟨"TCS", 1⟩, 0)] })) ∧
    lookupA "TCS" (eraseA "INFY" stC7.tickerCache) = some (⟨"TCS", 1⟩, 0) := by
  have h := clear_cache_semantics envW 0 stC7 ⟨"INFY", 0⟩ ⟨"TCS", 1⟩ 0 0 rfl rfl
  exact ⟨h.1, h.2.1, h.2.2.1⟩


/-- C3 (amended): a tool name outside the routing table is only reported
as `Unknown tool: ...` when a string `symbol` argument is present and the
ticker path succeeds (and even then through the generic exception
handler, as a `ValueError`); with an argument bag lacking `symbol` — such
as `handle("not_a_tool", \x7b\x7d)` — the dispatch fails earlier, on
`arguments["symbol"]`, and yields the generic `KeyError` payload instead. -/
theorem unknown_tool_dispatch (env : Env) (now : Nat) (name : String)
    (args : Args) (s : ServerState) (hname : name ∉ routedToolNames) :
    (List.lookup "symbol" args = none →
      call_tool env now name args s = (errorJson (.keyError "symbol"), s)) ∧
    (∀ sym t s', List.lookup "symbol" args = some (Json.str sym) →
      get_ticker env now (pyUpper sym) (clear_expired_cache now s).1 =
        (.ok t, s') →
      call_tool env now name args s =
        (errorJson (.valueError ("Unknown tool: " ++ name)), s')) := by
  constructor
  · intro hmiss
    rw [call_tool, call_tool_core_unrouted env now name args s hname]
    rw [ticker_tool_handler, hmiss]
  · intro sym t s' hsym hticker
    rw [call_tool, call_tool_core_unrouted env now name args s hname]
    rw [ticker_tool_handler_unknown env now name args s s' sym t hname hsym
      hticker]

/-- C3 counterexample: `handle("not_a_tool", \x7b\x7d)` produces the
generic `KeyError` payload for the missing `symbol` argument — whose
`error` field is `'symbol'` — and not the `Unknown tool: not_a_tool`
payload the claim expects. -/
theorem unknown_tool_keyerror_counterexample :
    call_tool envW 0 "not_a_tool" [] initState =
      (errorJson (.keyError "symbol"), initState) ∧
    errField (call_tool envW 0 "not_a_tool" [] initState).1 =
      some "'symbol'" ∧
    (call_tool envW 0 "not_a_tool" [] initState).1 ≠
      errorJson (.valueError "Unknown tool: not_a_tool") := by
  refine ⟨rfl, rfl, fun h => ?_⟩
  have h2 := congrArg errField h
  rw [show errField (call_tool envW 0 "not_a_tool" [] initState).1 =
        some "'symbol'" from rfl,
      show errField (errorJson (.valueError "Unknown tool: not_a_tool")) =
        some "Unknown tool: not_a_tool" from rfl] at h2
  exact absurd (Option.some_inj.mp h2) (by decide)

theorem unknown_tool_dispatch_witness :
    (call_tool envW 0 "another_fake_tool" [] initState =
      (errorJson (.keyError "symbol"), initState)) ∧
    (call_tool envW 0 "another_fake_tool" [("symbol", Json.str "INFY")] stC1 =
      (errorJson (.valueError "Unknown tool: another_fake_tool"), stC1)) := by
  have h := unknown_tool_dispatch envW 0 "another_fake_tool" [] initState
    (by decide)
  have h2 := unknown_tool_dispatch envW 0 "another_fake_tool"
    [("symbol", Json.str "INFY")] stC1 (by decide)
  exact ⟨h.1 rfl, h2.2 "INFY" ⟨"INFY", 0⟩ stC1 rfl rfl⟩

/-- C4: every symbol-scoped tabular tool renders its backend table with
`df_to_json`: an empty table yields exactly the single sentinel object,
a non-empty table the ordered sequence of its row-objects. -/
theorem tabular_empty_sentinel (env : Env) (now : Nat) (name sym : String)
    (args : Args) (s : ServerState)
    (hname : name ∈ tabularTools)
    (hsym : List.lookup "symbol" args = some (Json.str sym))
    (hmiss : lookupA (pyUpper sym) s.tickerCache = none)
    (hctor : env.constructOk = true)
    (hknown : env.knownSymbols.contains (pyUpper sym) = true) :
    (call_tool env now name args s).1 =
      df_to_json (tableFor env name (pyUpper sym)) ∧
    ((tableFor env name (pyUpper sym)).isEmpty = true →
      (call_tool env now name args s).1 =
        Json.obj [("error", Json.str "No data available")]) ∧
    ((tableFor env name (pyUpper sym)).isEmpty = false →
      (call_tool env now name args s).1 =
        Json.arr ((tableFor env name (pyUpper sym)).map Json.obj)) := by
  have hmiss' : lookupA (pyUpper (pyUpper sym))
      (clear_expired_cache now s).1.tickerCache = none := by
    rw [pyUpper_idem]
    exact sweep_lookup_none hmiss
  have hknown' : env.knownSymbols.contains (pyUpper (pyUpper sym)) = true := by
    rw [pyUpper_idem]
    exact hknown
  have hmain : (call_tool env now name args s).1 =
      df_to_json (tableFor env name (pyUpper sym)) := by
    simp only [tabularTools, List.mem_cons, List.not_mem_nil, or_false] at hname
    rcases hname with rfl | rfl | rfl | rfl | rfl | rfl <;>
    · rw [call_tool, call_tool_core]
      rw [if_neg (by decide), if_neg (by decide), if_neg (by decide),
          if_neg (by decide), if_neg (by decide)]
      rw [ticker_tool_handler, hsym]
      simp only [get_ticker, hmiss']
      rw [get_ticker_create_known hctor hknown']
      simp only [pyUpper_idem, tableFor]
      simp
  refine ⟨hmain, fun hempty => ?_, fun hnonempty => ?_⟩
  · rw [hmain, df_to_json, if_pos hempty]
  · rw [hmain, df_to_json, if_neg (by rw [hnonempty]; exact Bool.false_ne_true)]


theorem tabular_empty_sentinel_witness :
    (call_tool envC4 0 "get_balance_sheet"
        [("symbol", Json.str "infy")] initState).1 =
      Json.obj [("error", Json.str "No data available")] ∧
    (call_tool envC4 0 "get_income_statement"
        [("symbol", Json.str "infy")] initState).1 =
      Json.arr [Json.obj rowC4] := by
  have h1 := tabular_empty_sentinel envC4 0 "get_balance_sheet" "infy"
    [("symbol", Json.str "infy")] initState (by decide) rfl rfl rfl (by decide)
  have h2 := tabular_empty_sentinel envC4 0 "get_income_statement" "infy"
    [("symbol", Json.str "infy")] initState (by decide) rfl rfl rfl (by decide)
  exact ⟨h1.2.1 rfl, h2.2.2 rfl⟩

theorem get_sfinance_fresh {env : Env} {s : ServerState}
    (hsf : s.sf = none) (hla : s.loginAttempted = false)
    (hctor : env.constructOk = true) :
    get_sfinance env s =
      (.ok ⟨loginOutcome env⟩,
       { s with sf := some ⟨loginOutcome env⟩,
                loginAttempted := true,
                loginSuccessful := loginOutcome env,
                constructCalls := s.constructCalls + 1,
                loginCalls := s.loginCalls +
                  (if credsPresent env then 1 else 0) }) := by
  by_cases hcp : credsPresent env
  · simp [get_sfinance, hsf, hla, hctor, hcp, loginOutcome]
  · simp [get_sfinance, hsf, hla, hctor, hcp, loginOutcome]

/-- C9 (amended): when a symbol-scoped request fails because the symbol is
unknown, the error is surfaced as the structured `Ticker not found`
payload with a suggestion to verify the symbol, nothing is inserted into
the cache for that symbol, and every still-live entry for another symbol
is untouched — but the routine pre-request expiry sweep may remove other
symbols' expired entries. -/
theorem resource_not_found_no_poison (env : Env) (now : Nat)
    (name sym : String) (args : Args) (s : ServerState)
    (hname : name ∈ symbolTools)
    (hsym : List.lookup "symbol" args = some (Json.str sym))
    (hnodup : (s.tickerCache.map Prod.fst).Nodup)
    (hmiss : lookupA (pyUpper sym) s.tickerCache = none)
    (hctor : env.constructOk = true)
    (hunknown : env.knownSymbols.contains (pyUpper sym) = false) :
    (call_tool env now name args s).1 =
      Json.obj [("error", Json.str "Ticker not found"),
                ("message", Json.str (pyUpper sym)),
                ("suggestion",
                 Json.str "Please verify the stock symbol is correct and listed on NSE/BSE")] ∧
    lookupA (pyUpper sym) (call_tool env now name args s).2.tickerCache =
      none ∧
    (∀ k t ct, k ≠ pyUpper sym → lookupA k s.tickerCache = some (t, ct) →
      now - ct < cacheTTL →
      lookupA k (call_tool env now name args s).2.tickerCache =
        some (t, ct)) := by
  have hmiss' : lookupA (pyUpper (pyUpper sym))
      (clear_expired_cache now s).1.tickerCache = none := by
    rw [pyUpper_idem]
    exact sweep_lookup_none hmiss
  have hunknown' : env.knownSymbols.contains (pyUpper (pyUpper sym)) = false := by
    rw [pyUpper_idem]
    exact hunknown
  have hrun : call_tool env now name args s =
      (errorJson (.tickerNotFound (pyUpper sym)),
       { (get_sfinance env (clear_expired_cache now s).1).2 with
           factoryCalls :=
             (get_sfinance env (clear_expired_cache now s).1).2.factoryCalls
               + 1 }) := by
    simp only [symbolTools, List.mem_cons, List.not_mem_nil, or_false] at hname
    rcases hname with rfl | rfl | rfl | rfl | rfl | rfl | rfl <;>
    · rw [call_tool, call_tool_core]
      rw [if_neg (by decide), if_neg (by decide), if_neg (by decide),
          if_neg (by decide), if_neg (by decide)]
      rw [ticker_tool_handler, hsym]
      simp only [get_ticker, hmiss']
      rw [get_ticker_create_unknown hctor hunknown']
      simp only [pyUpper_idem]
  have hcache : (call_tool env now name args s).2.tickerCache =
      (clear_expired_cache now s).1.tickerCache := by
    rw [hrun]
    exact (get_sfinance_frame env (clear_expired_cache now s).1).1
  refine ⟨?_, ?_, fun k t ct hk hkl hlive => ?_⟩
  · rw [hrun]
    rfl
  · rw [hcache]
    exact sweep_lookup_none hmiss
  · rw [hcache]
    exact sweep_lookup_live hnodup hkl hlive

/-- C9 counterexample: a `get_overview` request for the unknown symbol
`ZZZZ` at time 24 fails with `Ticker not found` — and the `TCS` entry,
which was expired but present, has been removed by the pre-request sweep
during that same failing request, so entries for other symbols are NOT
all untouched. -/
theorem resource_not_found_sweeps_counterexample :
    (call_tool envW 24 "get_overview" [("symbol", Json.str "ZZZZ")] stC9).1 =
      errorJson (.tickerNotFound "ZZZZ") ∧
    lookupA "TCS" stC9.tickerCache = some (⟨"TCS", 0⟩, 0) ∧
    lookupA "TCS" (call_tool envW 24 "get_overview"
        [("symbol", Json.str "ZZZZ")] stC9).2.tickerCache = none := by
  refine ⟨rfl, rfl, rfl⟩

theorem resource_not_found_no_poison_witness :
    (call_tool envW 23 "get_overview" [("symbol", Json.str "ZZZZ")] stC9).1 =
      Json.obj [("error", Json.str "Ticker not found"),
                ("message", Json.str "ZZZZ"),
                ("suggestion",
                 Json.str "Please verify the stock symbol is correct and listed on NSE/BSE")] ∧
    lookupA "ZZZZ" (call_tool envW 23 "get_overview"
        [("symbol", Json.str "ZZZZ")] stC9).2.tickerCache = none ∧
    lookupA "TCS" (call_tool envW 23 "get_overview"
        [("symbol", Json.str "ZZZZ")] stC9).2.tickerCache =
      some (⟨"TCS", 0⟩, 0) := by
  have h := resource_not_found_no_poison envW 23 "get_overview" "ZZZZ"
    [("symbol", Json.str "ZZZZ")] stC9 (by decide) rfl (by decide) rfl rfl
    (by decide)
  exact ⟨h.1, h.2.1, h.2.2 "TCS" ⟨"TCS", 0⟩ 0 (by decide) rfl (by decide)⟩

/-- C10: dispatching an unrecognized tool name whose argument bag does
contain a string `symbol` is not side-effect free: before the
`Unknown tool` error response is produced the dispatcher has run the
expiry sweep, constructed the backing session, invoked the ticker
factory, and inserted the fresh ticker into the cache. -/
theorem unknown_tool_side_effects (env : Env) (now : Nat)
    (name sym : String) (args : Args) (s : ServerState)
    (hname : name ∉ routedToolNames)
    (hsym : List.lookup "symbol" args = some (Json.str sym))
    (hmiss : lookupA (pyUpper sym) s.tickerCache = none)
    (hctor : env.constructOk = true)
    (hknown : env.knownSymbols.contains (pyUpper sym) = true)
    (hsf : s.sf = none) (hla : s.loginAttempted = false) :
    (call_tool env now name args s).1 =
      errorJson (.valueError ("Unknown tool: " ++ name)) ∧
    (call_tool env now name args s).2.sf = some ⟨loginOutcome env⟩ ∧
    (call_tool env now name args s).2.constructCalls = s.constructCalls + 1 ∧
    (call_tool env now name args s).2.factoryCalls = s.factoryCalls + 1 ∧
    (call_tool env now name args s).2.tickerCache =
      insertA (pyUpper sym) (⟨pyUpper sym, s.nextId⟩, now)
        (clear_expired_cache now s).1.tickerCache ∧
    lookupA (pyUpper sym) (call_tool env now name args s).2.tickerCache =
      some (⟨pyUpper sym, s.nextId⟩, now) := by
  have hmiss' : lookupA (pyUpper (pyUpper sym))
      (clear_expired_cache now s).1.tickerCache = none := by
    rw [pyUpper_idem]
    exact sweep_lookup_none hmiss
  have hknown' : env.knownSymbols.contains (pyUpper (pyUpper sym)) = true := by
    rw [pyUpper_idem]
    exact hknown
  have hfresh := @get_sfinance_fresh env (clear_expired_cache now s).1
    hsf hla hctor
  have hrun : call_tool env now name args s =
      (errorJson (.valueError ("Unknown tool: " ++ name)),
       { (get_sfinance env (clear_expired_cache now s).1).2 with
           factoryCalls :=
             (get_sfinance env (clear_expired_cache now s).1).2.factoryCalls
               + 1,
           nextId := s.nextId + 1,
           tickerCache := insertA (pyUpper sym) (⟨pyUpper sym, s.nextId⟩, now)
             (clear_expired_cache now s).1.tickerCache }) := by
    rw [call_tool, call_tool_core_unrouted env now name args s hname]
    rw [ticker_tool_handler_unknown env now name args s _ sym
      ⟨pyUpper sym, s.nextId⟩ hname hsym ?_]
    · rw [get_ticker]
      simp only [hmiss']
      rw [get_ticker_create_known hctor hknown']
      simp only [pyUpper_idem]
      rfl
  refine ⟨?_, ?_, ?_, ?_, ?_, ?_⟩
  · rw [hrun]
  · rw [hrun]
    simp only
    rw [hfresh]
  · rw [hrun]
    simp only
    rw [hfresh]
    rfl
  · rw [hrun]
    simp only
    rw [hfresh]
    rfl
  · rw [hrun]
  · rw [hrun]
    simp only
    rw [lookupA_insertA_self]

theorem unknown_tool_side_effects_witness :
    (call_tool envW 0 "bogus_tool" [("symbol", Json.str "infy")] initState).1 =
      errorJson (.valueError "Unknown tool: bogus_tool") ∧
    (call_tool envW 0 "bogus_tool"
        [("symbol", Json.str "infy")] initState).2.sf = some ⟨false⟩ ∧
    lookupA "INFY" (call_tool envW 0 "bogus_tool"
        [("symbol", Json.str "infy")] initState).2.tickerCache =
      some (⟨"INFY", 0⟩, 0) := by
  have h := unknown_tool_side_effects envW 0 "bogus_tool" "infy"
    [("symbol", Json.str "infy")] initState (by decide) rfl rfl rfl
    (by decide) rfl rfl
  exact ⟨h.1, h.2.1, h.2.2.2.2.2⟩

theorem mem_eraseA {e : String × Ticker × Nat} {k : String}
    {l : List (String × Ticker × Nat)} (h : e ∈ eraseA k l) : e ∈ l := by
  induction l with
  | nil => simp [eraseA] at h
  | cons e' rest ih =>
    by_cases he : e'.1 = k
    · rw [eraseA, if_pos he] at h
      exact List.mem_cons_of_mem _ (ih h)
    · rw [eraseA, if_neg he] at h
      rcases List.mem_cons.mp h with heq | hmem
      · exact heq ▸ List.mem_cons_self _ _
      · exact List.mem_cons_of_mem _ (ih hmem)

theorem mem_insertA {e : String × Ticker × Nat} {k : String} {v : Ticker × Nat}
    {l : List (String × Ticker × Nat)} (h : e ∈ insertA k v l) :
    e ∈ l ∨ e = (k, v) := by
  by_cases hany : l.any (fun x => x.1 = k)
  · rw [insertA, if_pos hany] at h
    rcases List.mem_map.mp h with ⟨x, hx, hfx⟩
    by_cases hxk : x.1 = k
    · right
      rw [← hfx, if_pos hxk]
    · left
      rw [← hfx, if_neg hxk]
      exact hx
  · rw [insertA, if_neg hany] at h
    rcases List.mem_append.mp h with h1 | h2
    · exact Or.inl h1
    · exact Or.inr (by simpa using h2)

theorem keysUpper_eraseA {k : String} {l : List (String × Ticker × Nat)}
    (h : KeysUpper l) : KeysUpper (eraseA k l) :=
  fun e he => h e (mem_eraseA he)

theorem keysUpper_foldl_erase {K : List String}
    {l : List (String × Ticker × Nat)} (h : KeysUpper l) :
    KeysUpper (K.foldl (fun c j => eraseA j c) l) := by
  induction K generalizing l with
  | nil => exact h
  | cons j K ih => exact ih (keysUpper_eraseA h)

theorem keysUpper_insertA {k : String} {v : Ticker × Nat}
    {l : List (String × Ticker × Nat)} (hk : pyUpper k = k)
    (h : KeysUpper l) : KeysUpper (insertA k v l) := by
  intro e he
  rcases mem_insertA he with hmem | heq
  · exact h e hmem
  · rw [heq]
    exact hk

theorem keysUpper_sweep {now : Nat} {s : ServerState}
    (h : KeysUpper s.tickerCache) :
    KeysUpper (clear_expired_cache now s).1.tickerCache := by
  rw [clear_expired_cache_cache]
  exact keysUpper_foldl_erase h

theorem keysUpper_create {env : Env} {now : Nat} {u : String}
    {s : ServerState} (hu : pyUpper u = u) (h : KeysUpper s.tickerCache) :
    KeysUpper (get_ticker_create env now u s).2.tickerCache := by
  rcases hget : get_sfinance env s with ⟨r, s'⟩
  have hc : s'.tickerCache = s.tickerCache := by
    have := (get_sfinance_frame env s).1
    rw [hget] at this
    exact this
  cases r with
  | error msg =>
    simp only [get_ticker_create, hget]
    exact hc ▸ h
  | ok sess =>
    simp only [get_ticker_create, hget]
    by_cases hkn : env.knownSymbols.contains u = true
    · simp only [hkn, if_true]
      exact keysUpper_insertA hu (hc ▸ h)
    · simp only [hkn, if_false]
      exact hc ▸ h

theorem keysUpper_get_ticker {env : Env} {now : Nat} {x : String}
    {s : ServerState} (h : KeysUpper s.tickerCache) :
    KeysUpper (get_ticker env now x s).2.tickerCache := by
  have hu : pyUpper (pyUpper x) = pyUpper x := pyUpper_idem x
  cases hl : lookupA (pyUpper x) s.tickerCache with
  | some v =>
    obtain ⟨t, ct⟩ := v
    simp only [get_ticker, hl]
    by_cases hlive : now - ct < cacheTTL
    · rw [if_pos hlive]
      exact h
    · rw [if_neg hlive]
      exact keysUpper_create hu (keysUpper_eraseA h)
  | none =>
    simp only [get_ticker, hl]
    exact keysUpper_create hu h

theorem screen_stocks_handler_cache (env : Env) (args : Args)
    (s : ServerState) :
    (screen_stocks_handler env args s).2.tickerCache = s.tickerCache := by
  rw [screen_stocks_handler]
  cases hq : List.lookup "query" args with
  | none => rfl
  | some q =>
    rcases hget : get_sfinance env s with ⟨r, s'⟩
    have hc : s'.tickerCache = s.tickerCache := by
      have := (get_sfinance_frame env s).1
      rw [hget] at this
      exact this
    cases r with
    | error m => simpa using hc
    | ok sess =>
      simp only
      by_cases hlog : is_logged_in s' = true
      · simp only [hlog, Bool.not_true, if_false]
        cases env.screenerData with
        | none => simpa using hc
        | some df => simpa using hc
      · rw [Bool.not_eq_true] at hlog
        simp only [hlog, Bool.not_false, if_true]
        simpa using hc

theorem clear_cache_handler_keysUpper (args : Args) (s : ServerState)
    (h : KeysUpper s.tickerCache) :
    KeysUpper (clear_cache_handler args s).2.tickerCache := by
  have hnil : KeysUpper ([] : List (String × Ticker × Nat)) :=
    fun e he => absurd he (List.not_mem_nil e)
  rw [clear_cache_handler]
  cases hv : List.lookup "symbol" args with
  | none => exact hnil
  | some v =>
    by_cases ht : truthy v = true
    · cases v with
      | str sym =>
        simp only [ht, if_true]
        by_cases hior : (lookupA (pyUpper sym) s.tickerCache).isSome = true
        · simp only [hior, if_true]
          exact keysUpper_eraseA h
        · simp only [hior, if_false]
          exact h
      | num n => simp only [ht, if_true]; exact h
      | bool b => simp only [ht, if_true]; exact h
      | arr l => simp only [ht, if_true]; exact h
      | obj l => simp only [ht, if_true]; exact h
    · rw [Bool.not_eq_true] at ht
      simp only [ht, if_false]
      exact hnil

theorem ticker_tool_handler_keysUpper (env : Env) (now : Nat) (name : String)
    (args : Args) (s : ServerState) (h : KeysUpper s.tickerCache) :
    KeysUpper (ticker_tool_handler env now name args s).2.tickerCache := by
  rw [ticker_tool_handler]
  cases hv : List.lookup "symbol" args with
  | none => exact h
  | some v =>
    cases v with
    | str sym =>
      simp only
      have hsw := @keysUpper_sweep now s h
      rcases hg : get_ticker env now (pyUpper sym)
          (clear_expired_cache now s).1 with ⟨r, s'⟩
      have hks : KeysUpper s'.tickerCache := by
        have := @keysUpper_get_ticker env now (pyUpper sym)
          (clear_expired_cache now s).1 hsw
        rw [hg] at this
        exact this
      cases r with
      | error e => exact hks
      | ok t => split_ifs <;> exact hks
    | num n => exact h
    | bool b => exact h
    | arr l => exact h
    | obj l => exact h

theorem call_tool_state (env : Env) (now : Nat) (name : String) (args : Args)
    (s : ServerState) :
    (call_tool env now name args s).2 = (call_tool_core env now name args s).2 := by
  rcases h : call_tool_core env now name args s with ⟨r, s'⟩
  cases r <;> simp [call_tool, h]

theorem call_tool_keysUpper (env : Env) (now : Nat) (name : String)
    (args : Args) (s : ServerState) (h : KeysUpper s.tickerCache) :
    KeysUpper (call_tool env now name args s).2.tickerCache := by
  rw [call_tool_state, call_tool_core]
  by_cases h1 : name = "get_cache_stats"
  · rw [if_pos h1]
    exact h
  rw [if_neg h1]
  by_cases h2 : name = "clear_cache"
  · rw [if_pos h2]
    exact clear_cache_handler_keysUpper args s h
  rw [if_neg h2]
  by_cases h3 : name = "check_login_status"
  · rw [if_pos h3]
    exact h
  rw [if_neg h3]
  by_cases h4 : name = "screen_stocks"
  · rw [if_pos h4]
    rw [show KeysUpper (screen_stocks_handler env args s).2.tickerCache =
      KeysUpper s.tickerCache from by rw [screen_stocks_handler_cache]]
    exact h
  rw [if_neg h4]
  by_cases h5 : name = "get_screening_parameters"
  · rw [if_pos h5]
    exact h
  rw [if_neg h5]
  exact ticker_tool_handler_keysUpper env now name args s h

theorem noCaseDup_of_keysUpper {c : List (String × Ticker × Nat)}
    (h : KeysUpper c) : NoCaseDup c := by
  intro e₁ h₁ e₂ h₂ heq
  rw [h e₁ h₁, h e₂ h₂] at heq
  exact heq

theorem runOps_keysUpper (env : Env) (ops : List (Nat × String × Args))
    (s : ServerState) (h : KeysUpper s.tickerCache) :
    KeysUpper (runOps env ops s).tickerCache := by
  induction ops generalizing s with
  | nil => exact h
  | cons op ops ih =>
    exact ih _ (call_tool_keysUpper env op.1 op.2.1 op.2.2 s h)

/-- C6: `get_ticker` depends on its symbol argument only through its
uppercasing, so any two case-variants of a symbol resolve to the same
cache entry; every dispatched tool call preserves the invariant that all
cache keys are uppercase; that invariant implies the map holds no two
keys differing only by case; and consequently, after any sequence of
dispatched operations from process start the cache never holds two keys
differing only by case. -/
theorem cache_key_canonicalization (env : Env) (now : Nat)
    (sym₁ sym₂ name : String) (args : Args) (st : ServerState) :
    (pyUpper sym₁ = pyUpper sym₂ →
      get_ticker env now sym₁ st = get_ticker env now sym₂ st) ∧
    (KeysUpper st.tickerCache →
      KeysUpper (call_tool env now name args st).2.tickerCache) ∧
    (KeysUpper st.tickerCache → NoCaseDup st.tickerCache) ∧
    (∀ ops : List (Nat × String × Args),
      NoCaseDup (runOps env ops initState).tickerCache) := by
  refine ⟨fun h => ?_, fun h => call_tool_keysUpper env now name args st h,
    fun h => noCaseDup_of_keysUpper h, fun ops => ?_⟩
  · simp only [get_ticker, h]
  · refine noCaseDup_of_keysUpper (runOps_keysUpper env ops initState ?_)
    intro e he
    exact absurd he (List.not_mem_nil e)

theorem cache_key_canonicalization_witness :
    get_ticker envW 0 "infy" initState = get_ticker envW 0 "INFY" initState ∧
    KeysUpper (call_tool envW 0 "get_overview"
        [("symbol", Json.str "tcs")] stC1).2.tickerCache ∧
    NoCaseDup stC1.tickerCache ∧
    NoCaseDup (runOps envW
      [(0, "get_overview", [("symbol", Json.str "tcs")]),
       (1, "get_income_statement", [("symbol", Json.str "Infy")])]
      initState).tickerCache := by
  have h0 := cache_key_canonicalization envW 0 "infy" "INFY" "get_overview"
    [("symbol", Json.str "tcs")] initState
  have h := cache_key_canonicalization envW 0 "infy" "INFY" "get_overview"
    [("symbol", Json.str "tcs")] stC1
  exact ⟨h0.1 (by decide), h.2.1 (by decide), h.2.2.1 (by decide),
    h.2.2.2 [(0, "get_overview", [("symbol", Json.str "tcs")]),
       (1, "get_income_statement", [("symbol", Json.str "Infy")])]⟩

end SFin
